import Mathlib

/-!
Verification of the EMDB XML translator (`emdb_xml_translate.py`), a
bidirectional field-crosswalk engine between the legacy v1.9 schema and the
normalized v3.0 schema of EMDB entry metadata.

This file shallowly embeds the parts of `EMDBXMLTranslator` that the checked
properties are about:

* the guarded value-transfer primitives `check_set` and `set_value_and_units`
  (fallible Python calls are modelled as `Except String`; the object mutated by
  a setter is modelled as explicit state passing);
* the accession-code formatter `format_emdb_code` together with an executable
  model of the `EMDB_PAT` regular expression;
* the PDB chain-identifier parsing of `translate_1_9_to_3_0` with a model of
  `PDB_CHAIN_PAT`;
* the technique dispatch that selects the structure-determination method and
  the concrete preparation/microscopy variants;
* the closed-enumeration clamping of the film/detector model and of the
  resolution-determination method;
* the nominal-defocus unit conversion with its round-trip integer marker
  (numbers are modelled as exact rationals; for the concrete values proved
  about here the IEEE double computations of the source round identically);
* the deposition/processing-site inverse lookup (`PROC_SITE_30_TO_19`);
* the image-acquisition de-duplication loop of `translate_3_0_to_1_9`.

Strings are kept as `String` where only equality tests occur and as
`List Char` where the regular-expression models need structural recursion.
-/

set_option autoImplicit false

namespace EmdbXmlTranslate

/-! ### Constants (class `EMDBXMLTranslator.Constants`) -/

/-- `EMM_EC = 'electronCrystallography'` -/
def EMM_EC : String := "electronCrystallography"

/-- `EMM_HEL = 'helical'` -/
def EMM_HEL : String := "helical"

/-- `EMM_SP = 'singleParticle'` -/
def EMM_SP : String := "singleParticle"

/-- `EMM_STOM = 'subtomogramAveraging'` -/
def EMM_STOM : String := "subtomogramAveraging"

/-- `EMM_TOM = 'tomography'` -/
def EMM_TOM : String := "tomography"

/-- `U_NM = 'nm'` -/
def U_NM : String := "nm"

/-- `U_MICROM = u'µ' + 'm'` -/
def U_MICROM : String := "µm"

/-- `EMDB_DUMMY_CODE = 'EMD-0000'` -/
def EMDB_DUMMY_CODE : String := "EMD-0000"

/-- `EMDB_PREFIX = 'EMD-'` -/
def EMDB_PREFIX : String := "EMD-"

/-- `PROC_SITE_30_TO_19 = {'pdbe': 'PDBe', 'rcsb': 'RCSB', 'pdbj': 'PDBj'}`,
modelled as an association list (the dict literal has distinct keys). -/
def PROC_SITE_30_TO_19 : List (String × String) :=
  [("pdbe", "PDBe"), ("rcsb", "RCSB"), ("pdbj", "PDBj")]

/-! ### Logging (`EMDBXMLTranslator.warn`)

`warn(level, msg)` forwards `msg` to the logger iff `level <= warning_level`.
The logger is modelled as a `List String` accumulator threaded through the
translated functions; `warning_level` is the per-translator configuration
field (0 min, 3 max, default 1). -/

/-- `def warn(self, level, msg): if level <= self.warning_level: logging.warning(msg)` -/
def warn (warning_level level : Nat) (log : List String) (msg : String) : List String :=
  if level ≤ warning_level then log ++ [msg] else log

/-! ### Value-transfer primitives

A fallible Python call is modelled as `Except String α` (the `String` is the
exception message).  A getter is the already-evaluated result of `get_value()`
— an `Except String (Option α)`: raising getters are `.error`, getters
returning `None` are `.ok none`.  A setter mutates the target object; this is
modelled as producing the new target state `σ` (or raising). -/

/-- `EMDBXMLTranslator.check_set(get_value, set_value, transform=None)`.

Source control flow: `value = get_value()` is evaluated outside any
`try` block; if `value is not None` the optional `transform` is applied inside
a `try` whose handler warns (level 3) twice (message and traceback) and
`return`s; then `set_value(value)` runs inside a `try` whose handler warns
(level 3) twice. -/
def check_set {α σ : Type} (warning_level : Nat)
    (get_value : Except String (Option α))
    (set_value : α → Except String σ)
    (transform : Option (α → Except String α))
    (s : σ) (log : List String) : Except String (σ × List String) :=
  match get_value with
  | .error e => .error e
  | .ok none => .ok (s, log)
  | .ok (some value) =>
    match transform with
    | some tf =>
      match tf value with
      | .error exp =>
        let log := warn warning_level 3 log
          ("function check_set: Transform function did not work. Error: " ++ exp)
        let log := warn warning_level 3 log "traceback.format_exc()"
        .ok (s, log)
      | .ok value2 =>
        match set_value value2 with
        | .error exp =>
          let log := warn warning_level 3 log
            ("function check_set: Setter function did not work. Error: " ++ exp)
          let log := warn warning_level 3 log "traceback.format_exc()"
          .ok (s, log)
        | .ok s2 => .ok (s2, log)
    | none =>
      match set_value value with
      | .error exp =>
        let log := warn warning_level 3 log
          ("function check_set: Setter function did not work. Error: " ++ exp)
        let log := warn warning_level 3 log "traceback.format_exc()"
        .ok (s, log)
      | .ok s2 => .ok (s2, log)

/-- A value with a unit attribute, as produced by the generated schema classes
(`get_valueOf_()` / `get_units()`); the constructor argument of
`set_value_and_units` builds exactly such a pair. -/
structure VU where
  valueOf_ : String
  units : Option String
deriving DecidableEq

/-- `EMDBXMLTranslator.set_value_and_units(getter, setter, constructor, units=None, transform=None)`.

Source control flow: `x_value = getter()` runs outside any `try`;
`units_value` is the explicit `units` argument if given, else
`x_value.get_units()`; `y_value = constructor(valueOf_=..., units=units_value)`.
If `transform` raises, its handler warns twice, `z_value` stays unbound, and
the following `setter(z_value)` raises a `NameError` that the setter
`try` block catches and logs (two more warnings); the setter itself is never
applied.  A raising setter is caught and logged. -/
def set_value_and_units {σ : Type} (warning_level : Nat)
    (getter : Except String (Option VU))
    (setter : VU → Except String σ)
    (units : Option String)
    (transform : Option (VU → Except String VU))
    (s : σ) (log : List String) : Except String (σ × List String) :=
  match getter with
  | .error e => .error e
  | .ok none => .ok (s, log)
  | .ok (some x_value) =>
    let units_value : Option String :=
      match units with
      | none => x_value.units
      | some u => some u
    let y_value : VU := ⟨x_value.valueOf_, units_value⟩
    match transform with
    | some tf =>
      match tf y_value with
      | .error exp =>
        let log := warn warning_level 3 log
          ("function set_value_and_units: Transform function did not work. Error: " ++ exp)
        let log := warn warning_level 3 log "traceback.format_exc()"
        let log := warn warning_level 3 log
          "function set_value_and_units: Setter function did not work. Error: NameError: name z_value is not defined"
        let log := warn warning_level 3 log "traceback.format_exc()"
        .ok (s, log)
      | .ok z_value =>
        match setter z_value with
        | .error exp =>
          let log := warn warning_level 3 log
            ("function set_value_and_units: Setter function did not work. Error: " ++ exp)
          let log := warn warning_level 3 log "traceback.format_exc()"
          .ok (s, log)
        | .ok s2 => .ok (s2, log)
    | none =>
      match setter y_value with
      | .error exp =>
        let log := warn warning_level 3 log
          ("function set_value_and_units: Setter function did not work. Error: " ++ exp)
        let log := warn warning_level 3 log "traceback.format_exc()"
        .ok (s, log)
      | .ok s2 => .ok (s2, log)

/-! ### Accession-code formatting (`EMDBXMLTranslator.format_emdb_code`)

`EMDB_PAT = re.compile(r'(?i)(EMD-){0,1}(\d{4,})')` applied with `re.match`
(anchored at the start, free at the end).  The model works on `List Char` and
returns the second capture group (the maximal digit run, length at least 4). -/

/-- Python `str.upper()` on the ASCII strings involved here. -/
def pyUpper (s : String) : String := ⟨s.data.map Char.toUpper⟩

/-- Python `str.lower()` on the ASCII strings involved here. -/
def pyLower (s : String) : String := ⟨s.data.map Char.toLower⟩

/-- Case-insensitive comparison of one pattern character (`(?i)` flag). -/
def ciEq (c p : Char) : Bool := c.toLower == p.toLower

/-- The `(\d{4,})` tail of `EMDB_PAT`: the greedy digit run from the current
position, succeeding iff it has length at least 4. -/
def digitGroup (l : List Char) : Option (List Char) :=
  let ds := l.takeWhile Char.isDigit
  if 4 ≤ ds.length then some ds else none

/-- `re.match(EMDB_PAT, cs)`, returning capture group 2.  The optional group
`(EMD-){0,1}` is tried greedily; if the digit group then fails the regex
engine backtracks to the empty prefix (which also fails, since the first
character is then `E`/`e`, but the backtracking is modelled faithfully). -/
def emdbPatMatch (cs : List Char) : Option (List Char) :=
  match cs with
  | c0 :: c1 :: c2 :: c3 :: rest =>
    if ciEq c0 'E' && ciEq c1 'M' && ciEq c2 'D' && c3 == '-' then
      match digitGroup rest with
      | some ds => some ds
      | none => digitGroup cs
    else digitGroup cs
  | _ => digitGroup cs

/-- `EMDBXMLTranslator.format_emdb_code(code_in, number_only=False)`.

On a failed match the source warns at level 1, re-matches the pattern against
`EMDB_DUMMY_CODE` (`'EMD-0000'`, whose digit group is `'0000'`) and proceeds
with those groups.  With `number_only` it returns group 2, else
`EMDB_PREFIX + group 2`. -/
def format_emdb_code (warning_level : Nat) (code_in : List Char)
    (number_only : Bool) (log : List String) : List Char × List String :=
  match emdbPatMatch code_in with
  | some ds => (if number_only then ds else EMDB_PREFIX.data ++ ds, log)
  | none =>
    let log := warn warning_level 1 log
      "EMDB accession code does not match any standards. Using dummy code: EMD-0000"
    let ds := (emdbPatMatch EMDB_DUMMY_CODE.data).getD []
    (if number_only then ds else EMDB_PREFIX.data ++ ds, log)

/-! ### PDB chain parsing (`translate_1_9_to_3_0`, modelling loop)

`PDB_CHAIN_PAT = re.compile(r'(\d[\dA-Za-z]{3})([-_:; ]?)([A-Za-z0-9]+)')`
applied with `re.match` to each `pdbChainId` string of a fitted model. -/

/-- One character of `[\dA-Za-z]` / `[A-Za-z0-9]` (ASCII letters and digits). -/
def isAlnumAscii (c : Char) : Bool :=
  c.isDigit || ('A' ≤ c && c ≤ 'Z') || ('a' ≤ c && c ≤ 'z')

/-- One character of the separator class `[-_:; ]`. -/
def isSepChar (c : Char) : Bool :=
  c == '-' || c == '_' || c == ':' || c == ';' || c == ' '

/-- `re.match(PDB_CHAIN_PAT, cs)`, returning the triple of capture groups
(code, separator, chain).  Group 1 is four characters (digit then three
alphanumerics); group 2 greedily takes one separator character when the
following character can still start group 3 (the regex backtracks to the
empty separator otherwise, which fails because a separator character is not
alphanumeric); group 3 is the maximal nonempty alphanumeric run. -/
def pdb_chain_match (cs : List Char) :
    Option (List Char × List Char × List Char) :=
  match cs with
  | c0 :: c1 :: c2 :: c3 :: rest =>
    if c0.isDigit && isAlnumAscii c1 && isAlnumAscii c2 && isAlnumAscii c3 then
      match rest with
      | [] => none
      | r0 :: rtl =>
        if isSepChar r0 then
          match rtl with
          | [] => none
          | r1 :: _ =>
            if isAlnumAscii r1 then
              some ([c0, c1, c2, c3], [r0], rtl.takeWhile isAlnumAscii)
            else none
        else if isAlnumAscii r0 then
          some ([c0, c1, c2, c3], [], rest.takeWhile isAlnumAscii)
        else none
    else none
  | _ => none

/-- The per-chain body of the fitted-model translation
(`translate_1_9_to_3_0`, `for ch_in in chains_in`).  `p_in` is the declared
PDB access code of the surrounding `pdbEntryId`.  Result: the `chain_id`
finally carried by the emitted chain record (`none` when the chain object
stays without content and is not added), together with the log.

* match with `ch != ''` and `pdb_code == p_in`: `chain.set_chain_id(ch)`;
* match with a differing code: the source comments `this is an annotation
  problem` and executes `pass` — nothing is set and nothing is logged;
* no match: `chain.set_chain_id(ch_in.replace(',', ''))`. -/
def pdb_chain_id (p_in ch_in : List Char) (log : List String) :
    Option (List Char) × List String :=
  match pdb_chain_match ch_in with
  | some (pdb_code, _sep, ch) =>
    if ch.isEmpty then (none, log)
    else if pdb_code == p_in then (some ch, log)
    else (none, log)
  | none => (some (ch_in.filter (fun c => c != ',')), log)

/-! ### Technique dispatch (`translate_1_9_to_3_0`)

`em_method = processing.get_method()` when the v1.9 `processing` element is
present, else `'singleParticle'` (comment: `assume single particle`).
`struct_det.set_method` is then set by an `if`/`elif` chain with no final
`else`; the same `em_method` value later selects the concrete
preparation/microscopy variants, again by `elif` chains without defaults. -/

/-- `em_method` after the default: `process_in` is `none` when the entry has
no `processing` element, `some m` when present (`m` is `get_method()`, itself
optional). -/
def em_method_of (process_in : Option (Option String)) : Option String :=
  match process_in with
  | some m => m
  | none => some EMM_SP

/-- The value passed to `struct_det.set_method`, or `none` when no branch of
the `if`/`elif` chain fires and the method element stays unset. -/
def struct_det_method (em_method : Option String) : Option String :=
  match em_method with
  | none => none
  | some m =>
    if m == EMM_SP || m == EMM_STOM || m == EMM_TOM then some m
    else if m == "twoDCrystal" then some EMM_EC
    else if m == EMM_HEL then some EMM_HEL
    else none

/-- The five concrete specimen-preparation substitution groups of the v3.0
schema, identified by their `original_tagname_`. -/
inductive PrepVariant
  | tomography_preparation
  | single_particle_preparation
  | subtomogram_averaging_preparation
  | helical_preparation
  | crystallography_preparation
deriving DecidableEq

/-- Which preparation variant the forward translator constructs for a given
`em_method` (`prep` stays `None` when no branch fires). -/
def specimen_preparation_variant (em_method : Option String) : Option PrepVariant :=
  match em_method with
  | none => none
  | some m =>
    if m == EMM_TOM then some .tomography_preparation
    else if m == EMM_SP then some .single_particle_preparation
    else if m == EMM_STOM then some .subtomogram_averaging_preparation
    else if m == EMM_HEL then some .helical_preparation
    else if m == "twoDCrystal" then some .crystallography_preparation
    else none

/-- The five microscopy substitution groups, identified by their
`original_tagname_` (`subtomogram_averaging_microscopy` reuses the class
`tomography_microscopy_type` but keeps its own tag name). -/
inductive MicroscopyVariant
  | single_particle_microscopy
  | helical_microscopy
  | tomography_microscopy
  | subtomogram_averaging_microscopy
  | crystallography_microscopy
deriving DecidableEq

/-- Which microscopy variant the forward translator constructs for a given
`em_method`. -/
def microscopy_variant (em_method : Option String) : Option MicroscopyVariant :=
  match em_method with
  | none => none
  | some m =>
    if m == EMM_SP then some .single_particle_microscopy
    else if m == EMM_HEL then some .helical_microscopy
    else if m == EMM_TOM then some .tomography_microscopy
    else if m == EMM_STOM then some .subtomogram_averaging_microscopy
    else if m == "twoDCrystal" then some .crystallography_microscopy
    else none

/-! ### Closed-enumeration clamping (`set_base_microscopy`,
`set_final_reconstruction`) -/

/-- The `allowed_detectors` literal of `set_base_microscopy`
(`translate_1_9_to_3_0`). -/
def allowed_detectors : List String :=
  ["AGFA SCIENTA FILM", "DIRECT ELECTRON DE-10 (5k x 4k)",
   "DIRECT ELECTRON DE-12 (4k x 3k)", "DIRECT ELECTRON DE-16 (4k x 4k)",
   "DIRECT ELECTRON DE-20 (5k x 3k)", "DIRECT ELECTRON DE-64 (8k x 8k)",
   "FEI CETA (4k x 4k)", "FEI EAGLE (2k x 2k)", "FEI EAGLE (4k x 4k)",
   "FEI FALCON I (4k x 4k)", "FEI FALCON II (4k x 4k)",
   "FEI FALCON III (4k x 4k)", "GATAN K2 (4k x 4k)", "GATAN K2 BASE (4k x 4k)",
   "GATAN K2 IS (4k x 4k)", "GATAN K2 QUANTUM (4k x 4k)",
   "GATAN K2 SUMMIT (4k x 4k)", "GATAN MULTISCAN",
   "GATAN ORIUS SC1000 (4k x 2.7k)", "GATAN ORIUS SC200 (2k x 2k)",
   "GATAN ORIUS SC600 (2.7k x 2.7k)", "GATAN ULTRASCAN 1000 (2k x 2k)",
   "GATAN ULTRASCAN 10000 (10k x 10k)", "GATAN ULTRASCAN 4000 (4k x 4k)",
   "GENERIC CCD", "GENERIC CCD (2k x 2k)", "GENERIC CCD (4k x 4k)",
   "GENERIC FILM", "GENERIC GATAN", "GENERIC GATAN (2k x 2k)",
   "GENERIC GATAN (4k x 4k)", "GENERIC IMAGE PLATES", "GENERIC TVIPS",
   "GENERIC TVIPS (2k x 2k)", "GENERIC TVIPS (4k x 4k)", "KODAK 4489 FILM",
   "KODAK SO-163 FILM", "OTHER", "PROSCAN TEM-PIV (2k x 2k)",
   "SIA 15C (3k x 3k)", "TVIPS TEMCAM-F216 (2k x 2k)",
   "TVIPS TEMCAM-F224 (2k x 2k)", "TVIPS TEMCAM-F415 (4k x 4k)",
   "TVIPS TEMCAM-F416 (4k x 4k)", "TVIPS TEMCAM-F816 (8k x 8k)"]

/-- The value finally carried by `film_or_detector_model` for a given source
`detector` string (`set_base_microscopy`): round-trip mode passes the literal
value through; otherwise the source value is upper-cased
(`detect_in = detector_in.upper()`) and membership in `allowed_detectors` is
tested on the upper-cased value. -/
def film_or_detector_model (roundtrip : Bool) (detector_in : Option String) :
    Option String :=
  match detector_in with
  | none => none
  | some d =>
    if roundtrip then some d
    else
      let detect_in := pyUpper d
      if allowed_detectors.contains detect_in then some detect_in
      else some "OTHER"

/-- The `allowed_res_methods` literal of `set_final_reconstruction`
(`translate_1_9_to_3_0`). -/
def allowed_res_methods : List String :=
  ["DIFFRACTION PATTERN/LAYERLINES", "FSC 0.143 CUT-OFF", "FSC 0.33 CUT-OFF",
   "FSC 0.5 CUT-OFF", "FSC 1/2 BIT CUT-OFF", "FSC 3 SIGMA CUT-OFF", "OTHER"]

/-- The value passed to `final_rec.set_resolution_method` for a given source
`resolutionMethod`.  The source tests the raw value (no upper-casing) against
`allowed_res_methods` and does not consult `self.roundtrip` (the parameter is
in scope but unused); a value outside the list — including an absent value,
since `None in allowed_res_methods` is false — becomes `'OTHER'`. -/
def final_rec_resolution_method (_roundtrip : Bool)
    (res_method : Option String) : Option String :=
  match res_method with
  | some r => if allowed_res_methods.contains r then some r else some "OTHER"
  | none => some "OTHER"

/-- The reverse pass (`translate_3_0_to_1_9`) copies `resolution_method` back
to `resolutionMethod` unmodified through `check_set` with no transform. -/
def reverse_resolutionMethod (resolution_method : Option String) :
    Option String :=
  resolution_method

/-- Forward (round-trip mode) then reverse translation of the
`resolutionMethod` field of a v1.9 reconstruction. -/
def roundtrip_resolutionMethod (rm : Option String) : Option String :=
  reverse_resolutionMethod (final_rec_resolution_method true rm)

/-! ### Nominal defocus (`set_base_microscopy` forward, `translate_3_0_to_1_9`
reverse)

v1.9 stores defocus as text with a unit attribute; v3.0 stores a float.
Numeric values are modelled as exact rationals: for the concrete decimal
values proved about below the double-precision computations of the source
(`float(v) * 0.001`, `float(v) * 1000`) round to exactly the same results. -/

/-- Digits of a decimal string to a natural number. -/
def digitsToNat (cs : List Char) : Nat :=
  cs.foldl (fun n c => 10 * n + (c.toNat - 48)) 0

/-- Python `float()` on the unsigned decimal literals that occur as defocus
values (`'12'`, `'1.5'`, ...). -/
def pyFloatOfString (s : String) : ℚ :=
  match s.data.splitOn '.' with
  | [w] => (digitsToNat w : ℚ)
  | [w, f] => (digitsToNat w : ℚ) + (digitsToNat f : ℚ) / ((10 : ℚ) ^ f.length)
  | _ => 0

/-- Python `int()` on a float: truncation toward zero. -/
def pyTrunc (q : ℚ) : ℤ := if 0 ≤ q then ⌊q⌋ else ⌈q⌉

/-- `'{nominal defocus min is int}'` -/
def NOM_DEFOCUS_MIN_TAG : String := "\x7bnominal defocus min is int\x7d"

/-- `'{nominal defocus max is int}'` -/
def NOM_DEFOCUS_MAX_TAG : String := "\x7bnominal defocus max is int\x7d"

/-- A v3.0 value-with-units element holding a float (`nominal_defocus_minType`
and friends). -/
structure DefocusNew where
  valueOf_ : ℚ
  units : String
deriving DecidableEq

/-- Forward translation of `nominalDefocusMin` (`set_base_microscopy`,
element 9).  Returns the emitted `nominal_defocus_min` element and the
`add_to_details_nom_defocus_min` marker string.  With unit `nm` the textual
value is converted (`float(v) * 0.001`, re-tagged `µm`) and, when the text
contains no decimal point (`v.find('.') == -1`), the integer marker is
recorded for the details field.  With unit `µm` the source reads the local
variable `nominal_defoc_min_val`, which only the `nm` branch assigns — a
`NameError` that propagates.  Any other unit leaves the element unset. -/
def set_nominal_defocus_min (nominal_defoc_min : Option VU) :
    Except String (Option DefocusNew × String) :=
  match nominal_defoc_min with
  | none => .ok (none, "")
  | some d =>
    match d.units with
    | none => .ok (none, "")
    | some u =>
      if u == U_NM then
        let add_to_details :=
          if d.valueOf_.data.contains '.' then "" else NOM_DEFOCUS_MIN_TAG
        .ok (some ⟨pyFloatOfString d.valueOf_ * (1 / 1000), U_MICROM⟩,
             add_to_details)
      else if u == U_MICROM then
        .error "NameError: name nominal_defoc_min_val is not defined"
      else .ok (none, "")

/-- Forward translation of `nominalDefocusMax` (`set_base_microscopy`,
element 11).  As for the minimum, except that the non-`nm` branch is a bare
`else` — it also reads the unassigned local `nominal_defoc_max_val`. -/
def set_nominal_defocus_max (nominal_defoc_max : Option VU) :
    Except String (Option DefocusNew × String) :=
  match nominal_defoc_max with
  | none => .ok (none, "")
  | some d =>
    match d.units with
    | none => .ok (none, "")
    | some u =>
      if u == U_NM then
        let add_to_details :=
          if d.valueOf_.data.contains '.' then "" else NOM_DEFOCUS_MAX_TAG
        .ok (some ⟨pyFloatOfString d.valueOf_ * (1 / 1000), U_MICROM⟩,
             add_to_details)
      else
        .error "NameError: name nominal_defoc_max_val is not defined"

/-- Assembly of the v3.0 microscopy `details` element
(`set_base_microscopy`, element 21): the source details with both defocus
markers appended, or just the markers, or nothing. -/
def microscopy_all_details (im_details : Option String)
    (add_min add_max : String) : Option String :=
  match im_details with
  | some d => some (d ++ add_min ++ add_max)
  | none =>
    if add_min != "" || add_max != "" then some (add_min ++ add_max) else none

/-- A Python number: the `int`/`float` distinction decides whether the
serialized text carries a decimal point (`12` vs `12.0`). -/
inductive PyNum
  | int (n : ℤ)
  | float (q : ℚ)
deriving DecidableEq

/-- A v1.9 `defocusType` element as rebuilt by the reverse pass. -/
structure Defocus19 where
  valueOf_ : PyNum
  units : String
deriving DecidableEq

/-- `hay.find(needle) != -1` — substring containment. -/
def containsSub (hay needle : List Char) : Bool :=
  hay.tails.any (fun t => needle.isPrefixOf t)

/-- Reverse translation of `nominal_defocus_min` (`translate_3_0_to_1_9`,
`imgType` element 6): `float(v) * 1000`, converted with `int()` when
round-trip mode finds the integer marker in the microscopy details, emitted
with unit `'nm'`. -/
def reverse_nominal_defocus_min (roundtrip : Bool)
    (nom_defocus_min : Option ℚ) (mic_details : Option String) :
    Option Defocus19 :=
  match nom_defocus_min with
  | none => none
  | some q =>
    let v : ℚ := q * 1000
    let value : PyNum :=
      if roundtrip then
        match mic_details with
        | some d =>
          if containsSub d.data NOM_DEFOCUS_MIN_TAG.data then .int (pyTrunc v)
          else .float v
        | none => .float v
      else .float v
    some ⟨value, "nm"⟩

/-- Reverse translation of `nominal_defocus_max` (`translate_3_0_to_1_9`,
`imgType` element 7). -/
def reverse_nominal_defocus_max (roundtrip : Bool)
    (nom_defocus_max : Option ℚ) (mic_details : Option String) :
    Option Defocus19 :=
  match nom_defocus_max with
  | none => none
  | some q =>
    let v : ℚ := q * 1000
    let value : PyNum :=
      if roundtrip then
        match mic_details with
        | some d =>
          if containsSub d.data NOM_DEFOCUS_MAX_TAG.data then .int (pyTrunc v)
          else .float v
        | none => .float v
      else .float v
    some ⟨value, "nm"⟩

/-! ### Deposition / processing site lookup (`translate_3_0_to_1_9`)

`dep.set_depositionSite(const.PROC_SITE_30_TO_19[sites_in.get_deposition().lower()])`
and, when present,
`dep.set_processingSite(const.PROC_SITE_30_TO_19[proc_site_in.lower()])`.
Neither lookup sits inside a `try` block within `translate_3_0_to_1_9`: a
`KeyError` propagates out of the translation. -/

/-- Python `dict[key]`: `KeyError` when the key is absent. -/
def dictGet (d : List (String × String)) (k : String) : Except String String :=
  match d.find? (fun kv => kv.1 == k) with
  | some kv => .ok kv.2
  | none => .error ("KeyError: " ++ k)

/-- The deposition-site / processing-site fragment of the reverse admin
translation: both codes are lower-cased and looked up in
`PROC_SITE_30_TO_19`; the processing site only when present. -/
def translate_deposition_sites (deposition : String)
    (last_processing : Option String) : Except String (String × Option String) := do
  let dep_site ← dictGet PROC_SITE_30_TO_19 (pyLower deposition)
  match last_processing with
  | none => return (dep_site, none)
  | some p => do
    let proc_site ← dictGet PROC_SITE_30_TO_19 (pyLower p)
    return (dep_site, some proc_site)

/-! ### Image-acquisition de-duplication (`translate_3_0_to_1_9`,
`imageAcquisition` loop)

For every `image_recording` of every micrograph the reverse pass builds an
`imgScanType` record `im_ac` and, in parallel, a dict `image_acquasition`
capturing the digitization configuration.  The dict is compared
(`cmp(..) == 0`) against every configuration stored so far; only novel
configurations are stored and appended (in round-trip mode additionally only
when `im_ac.hasContent_()`). -/

/-- The `digitization_details` child of an `image_recording`. -/
structure DigitizationDetails where
  scanner : Option String
  sampling_interval : Option VU
deriving DecidableEq

/-- The fields of a v3.0 `image_recording` that the loop reads. -/
structure ImageRecording30 where
  number_real_images : Option String
  digitization_details : Option DigitizationDetails
  od_range : Option String
  bits_per_pixel : Option String
  details : Option String
deriving DecidableEq

/-- The `image_acquasition` dict.  Keys written unconditionally are plain
`Option`s; `scanner` is only written when `digitization_details` is present
(outer `Option` = key present, inner = stored value, possibly `None`);
`samplingSize` only when additionally `sampling_interval` is present (it
stores `valueOf_`); `URLRawData` only when the entry has an auxiliary link
(its value is the first link, possibly `None`). -/
structure ImgScanConfig where
  numDigitalImages : Option String
  scanner : Option (Option String)
  samplingSize : Option String
  odRange : Option String
  urlRawData : Option (Option String)
  quantBitNumber : Option String
  details : Option String
deriving DecidableEq

/-- The dict built for one `image_recording` (`aux` models the first
auxiliary link of the cross-references: `none` = no link element, `some l` =
a link with value `l`). -/
def mkImgScanConfig (aux : Option (Option String)) (r : ImageRecording30) :
    ImgScanConfig where
  numDigitalImages := r.number_real_images
  scanner := r.digitization_details.map (·.scanner)
  samplingSize := (r.digitization_details.bind (·.sampling_interval)).map (·.valueOf_)
  odRange := r.od_range
  urlRawData := aux
  quantBitNumber := r.bits_per_pixel
  details := r.details

/-- The emitted v1.9 `imgScanType` record: each field set through `check_set`
(so unset when the source value is `None`); `samplingSize` through
`set_value_and_units` with forced unit `microns`; `URLRawData` set directly
from the first auxiliary link when one exists. -/
structure ImgScan19 where
  numDigitalImages : Option String
  scanner : Option String
  samplingSize : Option VU
  odRange : Option String
  urlRawData : Option String
  quantBitNumber : Option String
  details : Option String
deriving DecidableEq

/-- `U_MCRN = 'microns'` -/
def U_MCRN : String := "microns"

/-- The `im_ac` record built for one `image_recording`. -/
def mkImgScan19 (aux : Option (Option String)) (r : ImageRecording30) :
    ImgScan19 where
  numDigitalImages := r.number_real_images
  scanner := r.digitization_details.bind (·.scanner)
  samplingSize := (r.digitization_details.bind (·.sampling_interval)).map
    (fun vu => ⟨vu.valueOf_, some U_MCRN⟩)
  odRange := r.od_range
  urlRawData := aux.bind id
  quantBitNumber := r.bits_per_pixel
  details := r.details

/-- `im_ac.hasContent_()`: some member is set. -/
def imgScan19HasContent (a : ImgScan19) : Bool :=
  a.numDigitalImages.isSome || a.scanner.isSome || a.samplingSize.isSome ||
  a.odRange.isSome || a.urlRawData.isSome || a.quantBitNumber.isSome ||
  a.details.isSome

/-- The loop body shared by both branches: append `im_ac` to the output
(`exp.add_imageAcquisition`), in round-trip mode only when it has content. -/
def appendImgScan (roundtrip : Bool) (out : List ImgScan19) (im_ac : ImgScan19) :
    List ImgScan19 :=
  if roundtrip then
    if imgScan19HasContent im_ac then out ++ [im_ac] else out
  else out ++ [im_ac]

/-- The de-duplication loop over the flattened list of image recordings.
`seen` is `image_acquasitions` (a dict keyed `1, 2, ...` — only its values
matter for the `cmp` test), `out` the emitted `imageAcquisition` list.
The dict built for a recording always carries its unconditionally-written
keys, so the source's `image_acquasition != {}` tests are always true and are
not represented. -/
def addImageAcquisitions (roundtrip : Bool) (aux : Option (Option String)) :
    List ImageRecording30 → List ImgScanConfig → List ImgScan19 → List ImgScan19
  | [], _seen, out => out
  | r :: rs, seen, out =>
    let config := mkImgScanConfig aux r
    let im_ac := mkImgScan19 aux r
    if seen.isEmpty then
      addImageAcquisitions roundtrip aux rs (seen ++ [config])
        (appendImgScan roundtrip out im_ac)
    else
      if config ∈ seen then
        addImageAcquisitions roundtrip aux rs seen out
      else
        addImageAcquisitions roundtrip aux rs (seen ++ [config])
          (appendImgScan roundtrip out im_ac)

/-- The emitted `imageAcquisition` list for a flattened recording list. -/
def imageAcquisitions (roundtrip : Bool) (aux : Option (Option String))
    (recs : List ImageRecording30) : List ImgScan19 :=
  addImageAcquisitions roundtrip aux recs [] []

/-! ## Theorems -/

/-! ### Helper lemmas -/

theorem warn_length_lt (warning_level level : Nat) (log : List String)
    (msg : String) (h : level ≤ warning_level) :
    log.length < (warn warning_level level log msg).length := by
  simp [warn, h]

theorem warn_length_lt_of_le (warning_level level : Nat) (log log2 : List String)
    (msg : String) (h : level ≤ warning_level) (hlen : log.length ≤ log2.length) :
    log.length < (warn warning_level level log2 msg).length := by
  simp only [warn, if_pos h, List.length_append, List.length_singleton]
  omega

theorem warn_length_le (warning_level level : Nat) (log : List String)
    (msg : String) : log.length ≤ (warn warning_level level log msg).length := by
  unfold warn
  split <;> simp

theorem check_set_transform_error {α σ : Type} (wl : Nat) (v : α)
    (tf : α → Except String α) (e : String) (set1 : α → Except String σ)
    (s : σ) (log : List String) (htf : tf v = Except.error e) :
    check_set wl (Except.ok (some v)) set1 (some tf) s log
      = Except.ok (s, warn wl 3
          (warn wl 3 log
            ("function check_set: Transform function did not work. Error: " ++ e))
          "traceback.format_exc()") := by
  simp only [check_set, htf]

theorem check_set_setter_error {α σ : Type} (wl : Nat) (v : α)
    (e : String) (set1 : α → Except String σ)
    (s : σ) (log : List String) (hset : set1 v = Except.error e) :
    check_set wl (Except.ok (some v)) set1 none s log
      = Except.ok (s, warn wl 3
          (warn wl 3 log
            ("function check_set: Setter function did not work. Error: " ++ e))
          "traceback.format_exc()") := by
  simp only [check_set, hset]

/-! ### Claim C2 — the guarded copy never propagates transform/setter
exceptions -/

/-- Claim C2: for every getter, setter and optional transform passed to
`check_set`: a getter returning `None` makes the call a no-op (the result does
not depend on the setter and leaves the state and log unchanged); a raising
transform is caught and logged (at the level-3 threshold) with the setter
never invoked (the result does not depend on the setter); a raising setter is
caught and logged with the state unchanged; and whenever the getter itself
returns, the call never propagates an exception. -/
theorem c2_check_set_guarded {α σ : Type} (wl : Nat) (s : σ) (log : List String) :
    (∀ (set1 : α → Except String σ) (transform : Option (α → Except String α)),
       check_set wl (Except.ok none) set1 transform s log = Except.ok (s, log))
    ∧ (∀ (v : α) (tf : α → Except String α) (e : String)
         (set1 set2 : α → Except String σ), tf v = Except.error e →
         check_set wl (Except.ok (some v)) set1 (some tf) s log
           = check_set wl (Except.ok (some v)) set2 (some tf) s log
         ∧ ∃ log2, check_set wl (Except.ok (some v)) set1 (some tf) s log
             = Except.ok (s, log2) ∧ (3 ≤ wl → log.length < log2.length))
    ∧ (∀ (v : α) (set1 : α → Except String σ) (e : String),
         set1 v = Except.error e →
         ∃ log2, check_set wl (Except.ok (some v)) set1 none s log
           = Except.ok (s, log2) ∧ (3 ≤ wl → log.length < log2.length))
    ∧ (∀ (gv : Option α) (set1 : α → Except String σ)
         (transform : Option (α → Except String α)),
         ∃ r, check_set wl (Except.ok gv) set1 transform s log = Except.ok r) := by
  refine ⟨fun set1 transform => rfl, ?_, ?_, ?_⟩
  · intro v tf e set1 set2 htf
    rw [check_set_transform_error wl v tf e set1 s log htf,
        check_set_transform_error wl v tf e set2 s log htf]
    exact ⟨rfl, _, rfl, fun h3 =>
      warn_length_lt_of_le wl 3 log _ _ h3 (warn_length_le wl 3 log _)⟩
  · intro v set1 e hset
    rw [check_set_setter_error wl v e set1 s log hset]
    exact ⟨_, rfl, fun h3 =>
      warn_length_lt_of_le wl 3 log _ _ h3 (warn_length_le wl 3 log _)⟩
  · intro gv set1 transform
    match gv with
    | none => exact ⟨(s, log), rfl⟩
    | some v =>
      match transform with
      | some tf =>
        match htf : tf v with
        | .error e => simp only [check_set, htf]; exact ⟨_, rfl⟩
        | .ok v2 =>
          match hset : set1 v2 with
          | .error e => simp only [check_set, htf, hset]; exact ⟨_, rfl⟩
          | .ok s2 => simp only [check_set, htf, hset]; exact ⟨_, rfl⟩
      | none =>
        match hset : set1 v with
        | .error e => simp only [check_set, hset]; exact ⟨_, rfl⟩
        | .ok s2 => simp only [check_set, hset]; exact ⟨_, rfl⟩

/-- Witness for C2 at a concrete raising setter. -/
theorem c2_check_set_guarded_witness :
    ∃ log2, check_set (α := Nat) (σ := Nat) 3 (Except.ok (some 5))
        (fun _ => Except.error "setter failed") none 0 []
        = Except.ok (0, log2)
      ∧ (3 ≤ 3 → (List.length ([] : List String)) < log2.length) :=
  (c2_check_set_guarded 3 0 []).2.2.1 5 (fun _ => Except.error "setter failed")
    "setter failed" rfl

/-! ### Claim C10 — a raising getter is not guarded and aborts the entry -/

/-- Claim C10: in both transfer primitives the getter is invoked outside any
exception handler, so a raising getter propagates its exception to the caller
instead of being caught and logged. -/
theorem c10_getter_unguarded {α σ : Type} (wl : Nat) (s : σ)
    (log : List String) (e : String) :
    (∀ (set1 : α → Except String σ) (transform : Option (α → Except String α)),
       check_set wl (Except.error e) set1 transform s log = Except.error e)
    ∧ (∀ (setter : VU → Except String σ) (units : Option String)
         (transform : Option (VU → Except String VU)),
       set_value_and_units wl (Except.error e) setter units transform s log
         = Except.error e) :=
  ⟨fun _ _ => rfl, fun _ _ _ => rfl⟩

/-! ### Claim C1 — the round trip is not lossless on the code -/

/-- Claim C1 (failing-input evaluation): the forward pass clamps
`resolutionMethod` even with `roundtrip=True` (the clamp at
`set_final_reconstruction` never consults the flag), and the reverse pass
copies the clamped value back verbatim, so a v1.9 entry whose
`resolutionMethod` is `'FSC 0.25 CUT-OFF'` (or whose `resolutionMethod` is
absent) does not survive `reverse(forward(x, roundtrip=true),
roundtrip=true)` — the claimed identity fails. -/
theorem c1_roundtrip_resolution_method_lost :
    roundtrip_resolutionMethod (some "FSC 0.25 CUT-OFF") = some "OTHER"
    ∧ some "OTHER" ≠ some "FSC 0.25 CUT-OFF"
    ∧ roundtrip_resolutionMethod none = some "OTHER"
    ∧ some "OTHER" ≠ (none : Option String) := by
  refine ⟨rfl, ?_, rfl, ?_⟩ <;> decide

/-! ### Claim C3 — enumeration clamping deviates from the claim -/

/-- Claim C3 (failing-input evaluation): `'GATAN K2 (4k x 4k)'` is on the
detector allow-list, yet in non-round-trip mode it is clamped to `'OTHER'`
(the source upper-cases the value before the membership test, and the list
contains lower-case letters); and the resolution-method clamp applies in
round-trip mode too (it never consults the flag) and performs no case
normalization, so a value that is allow-listed up to case is also clamped.
Round-trip mode does pass the detector model through verbatim. -/
theorem c3_enum_clamp_deviates :
    allowed_detectors.contains "GATAN K2 (4k x 4k)" = true
    ∧ film_or_detector_model false (some "GATAN K2 (4k x 4k)") = some "OTHER"
    ∧ film_or_detector_model true (some "GATAN K2 (4k x 4k)")
        = some "GATAN K2 (4k x 4k)"
    ∧ (∀ rt : Bool,
        final_rec_resolution_method rt (some "FSC 0.25 CUT-OFF") = some "OTHER")
    ∧ allowed_res_methods.contains (pyUpper "fsc 0.5 cut-off") = true
    ∧ final_rec_resolution_method false (some "fsc 0.5 cut-off") = some "OTHER" :=
  ⟨rfl, rfl, rfl, fun _ => rfl, rfl, rfl⟩

/-! ### Claim C4 — nominal defocus unit conversion round-trips integers -/

/-- Claim C4: a v1.9 nominal defocus `'12'` with unit `nm` (no decimal point)
forward-translates to the value `0.012` with unit `µm` plus the integer
marker appended to the microscopy details (min and max alike); the reverse
pass in round-trip mode multiplies by 1000 and, finding the marker in the
details, re-renders the value as the Python integer `12` — not the float
`12.0` — with unit `nm`. -/
theorem c4_nominal_defocus_roundtrip :
    set_nominal_defocus_min (some ⟨"12", some "nm"⟩)
      = Except.ok (some ⟨(0.012 : ℚ), U_MICROM⟩, NOM_DEFOCUS_MIN_TAG)
    ∧ set_nominal_defocus_max (some ⟨"12", some "nm"⟩)
      = Except.ok (some ⟨(0.012 : ℚ), U_MICROM⟩, NOM_DEFOCUS_MAX_TAG)
    ∧ microscopy_all_details none NOM_DEFOCUS_MIN_TAG NOM_DEFOCUS_MAX_TAG
      = some (NOM_DEFOCUS_MIN_TAG ++ NOM_DEFOCUS_MAX_TAG)
    ∧ reverse_nominal_defocus_min true (some (0.012 : ℚ))
        (some (NOM_DEFOCUS_MIN_TAG ++ NOM_DEFOCUS_MAX_TAG))
        = some ⟨.int 12, "nm"⟩
    ∧ reverse_nominal_defocus_max true (some (0.012 : ℚ))
        (some (NOM_DEFOCUS_MIN_TAG ++ NOM_DEFOCUS_MAX_TAG))
        = some ⟨.int 12, "nm"⟩
    ∧ (∀ q : ℚ, reverse_nominal_defocus_min false (some q) none
        = some ⟨.float (q * 1000), "nm"⟩)
    ∧ PyNum.int 12 ≠ PyNum.float 12 := by
  have hval : pyFloatOfString "12" * (1 / 1000) = (0.012 : ℚ) := by
    have h12 : pyFloatOfString "12" = ((12 : Nat) : ℚ) := rfl
    rw [h12]; norm_num
  have hmul : (0.012 : ℚ) * 1000 = 12 := by norm_num
  have htr : pyTrunc ((12 : ℚ)) = 12 := by
    simp [pyTrunc]
  refine ⟨?_, ?_, rfl, ?_, ?_, fun q => rfl, by simp⟩
  · have step : set_nominal_defocus_min (some ⟨"12", some "nm"⟩)
        = Except.ok (some ⟨pyFloatOfString "12" * (1 / 1000), U_MICROM⟩,
            NOM_DEFOCUS_MIN_TAG) := rfl
    rw [step, hval]
  · have step : set_nominal_defocus_max (some ⟨"12", some "nm"⟩)
        = Except.ok (some ⟨pyFloatOfString "12" * (1 / 1000), U_MICROM⟩,
            NOM_DEFOCUS_MAX_TAG) := rfl
    rw [step, hval]
  · have hfind : containsSub (NOM_DEFOCUS_MIN_TAG ++ NOM_DEFOCUS_MAX_TAG).data
        NOM_DEFOCUS_MIN_TAG.data = true := by decide
    simp only [reverse_nominal_defocus_min, hfind, if_true, hmul, htr]
  · have hfind : containsSub (NOM_DEFOCUS_MIN_TAG ++ NOM_DEFOCUS_MAX_TAG).data
        NOM_DEFOCUS_MAX_TAG.data = true := by decide
    simp only [reverse_nominal_defocus_max, hfind, if_true, hmul, htr]

/-! ### Claim C5 — unknown site codes are a hard lookup failure -/

/-- Claim C5: the reverse pass looks the deposition and last-processing site
codes up, after lower-casing, in `PROC_SITE_30_TO_19`; a code outside the
table raises a `KeyError` that propagates out of the translation (no default
is substituted), while the three known codes map to their legacy tokens. -/
theorem c5_site_lookup_hard_error (dep p : String) :
    (PROC_SITE_30_TO_19.find? (fun kv => kv.1 == pyLower dep) = none →
      ∀ lp, translate_deposition_sites dep lp
        = Except.error ("KeyError: " ++ pyLower dep))
    ∧ (∀ v, PROC_SITE_30_TO_19.find? (fun kv => kv.1 == pyLower dep)
          = some v →
        PROC_SITE_30_TO_19.find? (fun kv => kv.1 == pyLower p) = none →
        translate_deposition_sites dep (some p)
          = Except.error ("KeyError: " ++ pyLower p))
    ∧ translate_deposition_sites "PDBe" (some "RCSB")
        = Except.ok ("PDBe", some "RCSB")
    ∧ translate_deposition_sites "pdbj" none = Except.ok ("PDBj", none)
    ∧ translate_deposition_sites "EBI" none = Except.error "KeyError: ebi" := by
  refine ⟨?_, ?_, rfl, rfl, rfl⟩
  · intro h lp
    simp only [translate_deposition_sites, dictGet, h]
    rfl
  · intro v hdep hp
    simp only [translate_deposition_sites, dictGet, hdep, hp]
    rfl

/-- Witness for C5 at a concrete unknown site code. -/
theorem c5_site_lookup_hard_error_witness :
    translate_deposition_sites "EMDB" none = Except.error "KeyError: emdb" :=
  (c5_site_lookup_hard_error "EMDB" "x").1 rfl none

/-! ### Claim C7 — PDB chain parsing (corrected: the mismatch is silent) -/

/-- Counterexample to claim C7 as stated: for chain string `'1ABC_A'` with
declared PDB code `'2XYZ'` the chain is dropped, but no warning is logged —
the source executes a bare `pass` (with only a code comment), so the log is
unchanged, contradicting the claimed logged warning. -/
theorem c7_mismatch_silent_counterexample :
    pdb_chain_id "2XYZ".data "1ABC_A".data []
      = (none, ([] : List String)) := rfl

theorem pdb_chain_match_chain_ne_nil {cs code sep ch : List Char}
    (h : pdb_chain_match cs = some (code, sep, ch)) : ch ≠ [] := by
  unfold pdb_chain_match at h
  repeat' split at h
  all_goals first
    | exact Option.noConfusion h
    | (simp only [Option.some.injEq, Prod.mk.injEq] at h
       obtain ⟨-, -, hch⟩ := h
       subst hch
       simp [List.takeWhile_cons, *])

/-- Claim C7 (amended): a chain identifier matching `PDB_CHAIN_PAT` whose
parsed code equals the declared PDB code yields that chain id; on a code
mismatch no chain id is set and nothing is logged (the drop is silent); a
non-matching chain string is kept with commas removed. -/
theorem c7_chain_parsing_amended (p ch : List Char) (log : List String) :
    (∀ code sep c, pdb_chain_match ch = some (code, sep, c) →
       pdb_chain_id p ch log = ((if code = p then some c else none), log))
    ∧ (pdb_chain_match ch = none →
       pdb_chain_id p ch log = (some (ch.filter (fun c => c != ',')), log))
    ∧ pdb_chain_id "1ABC".data "1ABC_A".data log = (some "A".data, log) := by
  refine ⟨?_, ?_, rfl⟩
  · intro code sep c hm
    have hc : c ≠ [] := pdb_chain_match_chain_ne_nil hm
    cases c with
    | nil => exact absurd rfl hc
    | cons x xs =>
      simp only [pdb_chain_id, hm, List.isEmpty_cons, Bool.false_eq_true,
        if_false]
      by_cases hcp : code = p
      · simp [hcp]
      · simp [hcp]
  · intro hm
    simp only [pdb_chain_id, hm]

/-- Witness for C7 (amended) at the concrete matched chain `'1ABC_A'`. -/
theorem c7_chain_parsing_amended_witness :
    pdb_chain_id "1ABC".data "1ABC_A".data []
      = ((if "1ABC".data = "1ABC".data then some "A".data else none),
         ([] : List String)) :=
  (c7_chain_parsing_amended "1ABC".data "1ABC_A".data []).1
    "1ABC".data "_".data "A".data rfl

/-! ### Claim C8 — accession-code formatting -/

theorem all_takeWhile {α : Type} (p : α → Bool) (l : List α) :
    (l.takeWhile p).all p = true := by
  induction l with
  | nil => rfl
  | cons a t ih =>
    by_cases h : p a
    · simp [List.takeWhile_cons, h, ih]
    · simp [List.takeWhile_cons, h]

theorem digitGroup_some {l ds : List Char} (h : digitGroup l = some ds) :
    ds.all Char.isDigit = true ∧ 4 ≤ ds.length := by
  dsimp only [digitGroup] at h
  split at h
  · obtain rfl : l.takeWhile Char.isDigit = ds := by injection h
    exact ⟨all_takeWhile _ _, by assumption⟩
  · exact Option.noConfusion h

theorem emdbPatMatch_digits {cs ds : List Char} (h : emdbPatMatch cs = some ds) :
    ds.all Char.isDigit = true ∧ 4 ≤ ds.length := by
  unfold emdbPatMatch at h
  repeat' split at h
  all_goals first
    | exact digitGroup_some h
    | (obtain rfl : _ = ds := by injection h
       exact digitGroup_some (by assumption))

/-- Claim C8: `format_emdb_code` maps `'1234'` and `'emd-1234'` to
`'EMD-1234'`; an input not matching `EMDB_PAT` yields the dummy code
`'EMD-0000'` with a warning logged (at the level-1 threshold);
`number_only=True` returns only the digit group; and the emitted code always
has the shape `'EMD-'` followed by at least four digits. -/
theorem c8_format_emdb_code (wl : Nat) (log : List String) :
    format_emdb_code wl "1234".data false log = ("EMD-1234".data, log)
    ∧ format_emdb_code wl "emd-1234".data false log = ("EMD-1234".data, log)
    ∧ (∀ cs, emdbPatMatch cs = none →
        ∃ log2, format_emdb_code wl cs false log = ("EMD-0000".data, log2)
          ∧ (1 ≤ wl → log.length < log2.length))
    ∧ format_emdb_code wl "EMD-1234".data true log = ("1234".data, log)
    ∧ (∀ cs, ∃ ds, (format_emdb_code wl cs false log).1 = "EMD-".data ++ ds
        ∧ ds.all Char.isDigit = true ∧ 4 ≤ ds.length) := by
  refine ⟨rfl, rfl, ?_, rfl, ?_⟩
  · intro cs h
    simp only [format_emdb_code, h]
    exact ⟨_, rfl, fun h1 => warn_length_lt wl 1 log _ h1⟩
  · intro cs
    match hm : emdbPatMatch cs with
    | some ds =>
      refine ⟨ds, ?_, (emdbPatMatch_digits hm).1, (emdbPatMatch_digits hm).2⟩
      simp only [format_emdb_code, hm]
      rfl
    | none =>
      refine ⟨"0000".data, ?_, by decide, by decide⟩
      simp only [format_emdb_code, hm]
      rfl

/-- Witness for C8 at a concrete unparsable accession code. -/
theorem c8_format_emdb_code_witness :
    ∃ log2, format_emdb_code 1 "bad code".data false []
        = ("EMD-0000".data, log2)
      ∧ (1 ≤ 1 → (List.length ([] : List String)) < log2.length) :=
  (c8_format_emdb_code 1 []).2.2.1 "bad code".data rfl

/-! ### Claim C9 — technique dispatch (corrected: unknown techniques select
nothing) -/

/-- Counterexample to claim C9 as stated: a present-but-unknown technique tag
(`'electron diffraction'`) does not default to single-particle — no branch of
the dispatch fires, so the method element stays unset and no
preparation/microscopy variant is constructed. -/
theorem c9_unknown_technique_counterexample :
    struct_det_method (em_method_of (some (some "electron diffraction"))) = none
    ∧ specimen_preparation_variant (some "electron diffraction") = none
    ∧ microscopy_variant (some "electron diffraction") = none
    ∧ (none : Option String) ≠ some EMM_SP :=
  ⟨rfl, rfl, rfl, fun hc => Option.noConfusion hc⟩

/-- Claim C9 (amended): the source technique tag selects the target method —
the three identical tags pass through, `'twoDCrystal'` maps to
`'electronCrystallography'`, `'helical'` to itself — and determines the
constructed preparation/microscopy variants; an *absent* `processing` element
defaults to single-particle, but a present-and-unknown (or absent) technique
tag selects no method and no variant. -/
theorem c9_technique_dispatch_amended (m : String) :
    struct_det_method (em_method_of none) = some EMM_SP
    ∧ struct_det_method (em_method_of (some none)) = none
    ∧ (m = EMM_SP ∨ m = EMM_STOM ∨ m = EMM_TOM →
        struct_det_method (em_method_of (some (some m))) = some m)
    ∧ struct_det_method (em_method_of (some (some "twoDCrystal"))) = some EMM_EC
    ∧ struct_det_method (em_method_of (some (some EMM_HEL))) = some EMM_HEL
    ∧ (m ≠ EMM_SP → m ≠ EMM_STOM → m ≠ EMM_TOM → m ≠ EMM_HEL →
        m ≠ "twoDCrystal" →
        struct_det_method (some m) = none
        ∧ specimen_preparation_variant (some m) = none
        ∧ microscopy_variant (some m) = none)
    ∧ specimen_preparation_variant (some EMM_TOM)
        = some PrepVariant.tomography_preparation
    ∧ specimen_preparation_variant (some EMM_SP)
        = some PrepVariant.single_particle_preparation
    ∧ specimen_preparation_variant (some EMM_STOM)
        = some PrepVariant.subtomogram_averaging_preparation
    ∧ specimen_preparation_variant (some EMM_HEL)
        = some PrepVariant.helical_preparation
    ∧ specimen_preparation_variant (some "twoDCrystal")
        = some PrepVariant.crystallography_preparation
    ∧ microscopy_variant (some EMM_SP)
        = some MicroscopyVariant.single_particle_microscopy
    ∧ microscopy_variant (some EMM_HEL)
        = some MicroscopyVariant.helical_microscopy
    ∧ microscopy_variant (some EMM_TOM)
        = some MicroscopyVariant.tomography_microscopy
    ∧ microscopy_variant (some EMM_STOM)
        = some MicroscopyVariant.subtomogram_averaging_microscopy
    ∧ microscopy_variant (some "twoDCrystal")
        = some MicroscopyVariant.crystallography_microscopy := by
  refine ⟨rfl, rfl, ?_, rfl, rfl, ?_, rfl, rfl, rfl, rfl, rfl, rfl, rfl, rfl,
    rfl, rfl⟩
  · rintro (rfl | rfl | rfl) <;> rfl
  · intro h1 h2 h3 h4 h5
    refine ⟨?_, ?_, ?_⟩ <;>
      simp [struct_det_method, specimen_preparation_variant,
        microscopy_variant, h1, h2, h3, h4, h5]

/-- Witness for C9 (amended) at a concrete unknown technique tag. -/
theorem c9_technique_dispatch_amended_witness :
    struct_det_method (some "xyz") = none
    ∧ specimen_preparation_variant (some "xyz") = none
    ∧ microscopy_variant (some "xyz") = none :=
  (c9_technique_dispatch_amended "xyz").2.2.2.2.2.1 (by decide) (by decide)
    (by decide) (by decide) (by decide)

/-! ### Claim C6 — image-acquisition de-duplication -/

theorem card_insert_eq_erase {α : Type} [DecidableEq α] (c : α) (X : Finset α) :
    (insert c X).card = (X.erase c).card + 1 := by
  by_cases h : c ∈ X
  · rw [Finset.insert_eq_self.mpr h]
    exact (Finset.card_erase_add_one h).symm
  · rw [Finset.card_insert_of_not_mem h, Finset.erase_eq_of_not_mem h]

theorem addImageAcquisitions_length (aux : Option (Option String))
    (recs : List ImageRecording30) :
    ∀ (seen : List ImgScanConfig) (out : List ImgScan19),
    (addImageAcquisitions false aux recs seen out).length
      = out.length
        + (((recs.map (mkImgScanConfig aux)).toFinset) \ seen.toFinset).card := by
  induction recs with
  | nil =>
    intro seen out
    simp [addImageAcquisitions]
  | cons r rs ih =>
    intro seen out
    by_cases hseen : seen.isEmpty
    · have hnil : seen = [] := List.isEmpty_iff.mp hseen
      subst hnil
      have hstep : addImageAcquisitions false aux (r :: rs) [] out
          = addImageAcquisitions false aux rs [mkImgScanConfig aux r]
              (out ++ [mkImgScan19 aux r]) := rfl
      rw [hstep, ih]
      simp only [List.map_cons, List.toFinset_cons, List.toFinset_nil,
        Finset.sdiff_empty, List.length_append, List.length_singleton]
      rw [Finset.sdiff_insert, Finset.sdiff_empty, card_insert_eq_erase]
      omega
    · have hne : ¬seen = [] := fun hs => hseen (by simp [hs])
      by_cases hmem : mkImgScanConfig aux r ∈ seen
      · have hstep : addImageAcquisitions false aux (r :: rs) seen out
            = addImageAcquisitions false aux rs seen out := by
          dsimp only [addImageAcquisitions]
          rw [if_neg hseen, if_pos hmem]
        rw [hstep, ih]
        rw [List.map_cons, List.toFinset_cons,
          Finset.insert_sdiff_of_mem _ (List.mem_toFinset.mpr hmem)]
      · have hstep : addImageAcquisitions false aux (r :: rs) seen out
            = addImageAcquisitions false aux rs (seen ++ [mkImgScanConfig aux r])
                (out ++ [mkImgScan19 aux r]) := by
          dsimp only [addImageAcquisitions]
          rw [if_neg hseen, if_neg hmem]
          rfl
        have hnotmem : mkImgScanConfig aux r ∉ seen.toFinset :=
          fun hc => hmem (List.mem_toFinset.mp hc)
        rw [hstep, ih]
        simp only [List.toFinset_append, List.toFinset_cons, List.toFinset_nil,
          List.map_cons, List.length_append, List.length_singleton]
        rw [show seen.toFinset ∪ insert (mkImgScanConfig aux r) ∅
              = insert (mkImgScanConfig aux r) seen.toFinset by
            simp [Finset.insert_eq, Finset.union_comm]]
        rw [Finset.sdiff_insert, Finset.insert_sdiff_of_not_mem _ hnotmem,
          card_insert_eq_erase]
        omega

/-- Claim C6: on reverse translation the emitted `imageAcquisition` list has
exactly one record per distinct digitization configuration (the dict of the
seven compared fields), so N recordings with identical configurations yield
exactly one acquisition record. -/
theorem c6_image_acquisition_dedup (aux : Option (Option String))
    (recs : List ImageRecording30) :
    (imageAcquisitions false aux recs).length
      = ((recs.map (mkImgScanConfig aux)).toFinset).card
    ∧ (recs ≠ [] →
       (∀ r1, r1 ∈ recs → ∀ r2, r2 ∈ recs →
          mkImgScanConfig aux r1 = mkImgScanConfig aux r2) →
       (imageAcquisitions false aux recs).length = 1) := by
  have hmain : (imageAcquisitions false aux recs).length
      = ((recs.map (mkImgScanConfig aux)).toFinset).card := by
    have := addImageAcquisitions_length aux recs [] []
    simpa [imageAcquisitions] using this
  refine ⟨hmain, ?_⟩
  intro hne hall
  rcases recs with _ | ⟨r0, rtl⟩
  · exact absurd rfl hne
  · have h1 : (((r0 :: rtl).map (mkImgScanConfig aux)).toFinset)
        = {mkImgScanConfig aux r0} := by
      ext x
      simp only [List.mem_toFinset, List.mem_map, Finset.mem_singleton]
      constructor
      · rintro ⟨r, hr, rfl⟩
        exact hall r hr r0 (List.mem_cons_self _ _)
      · rintro rfl
        exact ⟨r0, List.mem_cons_self _ _, rfl⟩
    rw [hmain, h1, Finset.card_singleton]

/-- Witness for C6: three recordings with identical (empty) digitization
parameters collapse to a single acquisition record. -/
theorem c6_image_acquisition_dedup_witness :
    (imageAcquisitions false none
        [⟨none, none, none, none, none⟩, ⟨none, none, none, none, none⟩,
         ⟨none, none, none, none, none⟩]).length = 1 :=
  (c6_image_acquisition_dedup none
      [⟨none, none, none, none, none⟩, ⟨none, none, none, none, none⟩,
       ⟨none, none, none, none, none⟩]).2
    (by simp) (by decide)

end EmdbXmlTranslate
